import Mathlib

/-
Shallow embedding of parts of the ArcticDB query-processing pipeline:
  - src/cpp/arcticdb/processing/clause.hpp (clause structuring, constructors, schema hooks)
  - src/cpp/arcticdb/pipeline/read_options.hpp (ReadOptions defaults)
  - src/cpp/arcticdb/storage/mongo/mongo_client.cpp (MongoClientImpl read_segment / list_keys)
Machine integers are modelled as Nat/Int; fallible code returns Except; storage and
the component manager are modelled as explicit state.
-/

/-- Error codes raised through `internal::raise` / `user_input::check` in clause.hpp. -/
inductive ErrorCode where
  | E_ASSERTION_FAILURE
  | E_INVALID_USER_ARGUMENT
deriving DecidableEq

/-- Half-open row interval [rstart, rstop), as pipelines::RowRange. -/
structure RowRange where
  rstart : Nat
  rstop : Nat
deriving DecidableEq

/-- Half-open column interval [cstart, cstop), as pipelines::ColRange. -/
structure ColRange where
  cstart : Nat
  cstop : Nat
deriving DecidableEq

/-- A plan element: (row-range, col-range, storage key), as pipelines::RangesAndKey.
The storage key is opaque here and modelled by a Nat tag. -/
structure RangesAndKey where
  row_range : RowRange
  col_range : ColRange
  key : Nat
deriving DecidableEq

instance : Inhabited RangesAndKey := ⟨⟨⟨0, 0⟩, ⟨0, 0⟩, 0⟩⟩

/-- Lexicographic comparison by (row_range.start, col_range.start), the sort order of
row-slice structuring. -/
def rakBefore (a b : RangesAndKey) : Bool :=
  decide (a.row_range.rstart < b.row_range.rstart) ||
    (decide (a.row_range.rstart = b.row_range.rstart) &&
      decide (a.col_range.cstart ≤ b.col_range.cstart))

/-- Insert one plan element into a list sorted by `rakBefore`. -/
def insertSorted (e : RangesAndKey) : List RangesAndKey → List RangesAndKey
  | [] => [e]
  | x :: xs => if rakBefore e x then e :: x :: xs else x :: insertSorted e xs

/-- Sort a plan by (row_range.start, col_range.start). -/
def sortPlan : List RangesAndKey → List RangesAndKey
  | [] => []
  | x :: xs => insertSorted x (sortPlan xs)

/-- Append a row-range to the accumulator unless it is already present. -/
def insertAbsent (acc : List RowRange) (rr : RowRange) : List RowRange :=
  if rr ∈ acc then acc else acc ++ [rr]

/-- The distinct row-ranges of a plan, in order of first appearance. -/
def distinctRowRanges (plan : List RangesAndKey) : List RowRange :=
  plan.foldl (fun acc e => insertAbsent acc e.row_range) []

/-- For each distinct row-range of the sorted plan, the group of indexes of the entries
sharing that row-range. -/
def rowSliceGroups (sorted : List RangesAndKey) : List (List Nat) :=
  (distinctRowRanges sorted).map (fun rr =>
    (List.range sorted.length).filter (fun i => decide ((sorted.getD i default).row_range = rr)))

/-- Modelled from the spec: `structure_by_row_slice(plan)` (declared in clause_utils.hpp,
whose implementation is not under src/): sort the plan lexicographically by
(row_range.start, col_range.start), then partition so that each group contains exactly
the indexes of the entries sharing one row-range. The C++ sorts the vector in place and
returns the groups; here the pair (sorted plan, groups) makes the mutation explicit. -/
def structure_by_row_slice (plan : List RangesAndKey) : List RangesAndKey × List (List Nat) :=
  let sorted := sortPlan plan
  (sorted, rowSliceGroups sorted)

/-- AggregationClause plan-level structure_for_processing (clause.hpp:340-342):
unconditionally raises E_ASSERTION_FAILURE ("AggregationClause should never be first
in the pipeline"). -/
def AggregationClause.structure_for_processing (_plan : List RangesAndKey) :
    Except ErrorCode (List RangesAndKey × List (List Nat)) :=
  .error .E_ASSERTION_FAILURE

/-- MergeClause plan-level structure_for_processing (clause.hpp:581-583):
unconditionally raises E_ASSERTION_FAILURE. -/
def MergeClause.structure_for_processing (_plan : List RangesAndKey) :
    Except ErrorCode (List RangesAndKey × List (List Nat)) :=
  .error .E_ASSERTION_FAILURE

/-- ConcatClause plan-level structure_for_processing (clause.hpp:788-790):
unconditionally raises E_ASSERTION_FAILURE. -/
def ConcatClause.structure_for_processing (_plan : List RangesAndKey) :
    Except ErrorCode (List RangesAndKey × List (List Nat)) :=
  .error .E_ASSERTION_FAILURE

/-- PassthroughClause plan-level structure_for_processing (clause.hpp:100-103):
delegates to structure_by_row_slice. -/
def PassthroughClause.structure_for_processing (plan : List RangesAndKey) :
    List RangesAndKey × List (List Nat) :=
  structure_by_row_slice plan

/-- PassthroughClause entity-id-level structure_for_processing (clause.hpp:105-107):
returns the incoming grouping unchanged. -/
def PassthroughClause.structure_for_processing_entities (entity_ids_vec : List (List Nat)) :
    List (List Nat) :=
  entity_ids_vec

/-- SortClause plan-level structure_for_processing (clause.hpp:531-535): erase the first
incompletes_after_ entries from the plan, then structure the remainder by row slice. -/
def SortClause.structure_for_processing (incompletes_after : Nat)
    (plan : List RangesAndKey) : List RangesAndKey × List (List Nat) :=
  structure_by_row_slice (plan.drop incompletes_after)

lemma mem_insertSorted {a e : RangesAndKey} {l : List RangesAndKey} :
    a ∈ insertSorted e l ↔ a = e ∨ a ∈ l := by
  induction l with
  | nil => simp [insertSorted]
  | cons x xs ih =>
      by_cases h : rakBefore e x = true
      · simp [insertSorted, h]
      · simp only [insertSorted, if_neg h, List.mem_cons, ih]
        tauto

lemma mem_sortPlan {a : RangesAndKey} {l : List RangesAndKey} :
    a ∈ sortPlan l ↔ a ∈ l := by
  induction l with
  | nil => simp [sortPlan]
  | cons x xs ih => simp [sortPlan, mem_insertSorted, ih]

lemma mem_rowSliceGroups {sorted : List RangesAndKey} {g : List Nat} {i : Nat}
    (hg : g ∈ rowSliceGroups sorted) (hi : i ∈ g) :
    i < sorted.length ∧ sorted.getD i default ∈ sorted := by
  rcases List.mem_map.mp hg with ⟨rr, _, rfl⟩
  rcases List.mem_filter.mp hi with ⟨hrange, _⟩
  have hlen := List.mem_range.mp hrange
  refine ⟨hlen, ?_⟩
  rw [List.getD_eq_getElem _ _ hlen]
  exact List.getElem_mem hlen

/-- A two-element plan handed to PassthroughClause in descending row order. -/
def c3Plan : List RangesAndKey :=
  [⟨⟨10, 20⟩, ⟨0, 1⟩, 0⟩, ⟨⟨0, 10⟩, ⟨0, 1⟩, 1⟩]

/-- C1: for every plan, the plan-level structure_for_processing of AggregationClause,
MergeClause and ConcatClause signals E_ASSERTION_FAILURE and produces no grouping. -/
theorem C1_invalid_first_clause_raises :
    ∀ plan : List RangesAndKey,
      AggregationClause.structure_for_processing plan = .error .E_ASSERTION_FAILURE ∧
      MergeClause.structure_for_processing plan = .error .E_ASSERTION_FAILURE ∧
      ConcatClause.structure_for_processing plan = .error .E_ASSERTION_FAILURE :=
  fun _ => ⟨rfl, rfl, rfl⟩

/-- C3 counterexample: PassthroughClause's plan-level structure_for_processing reorders
a plan given in descending row order (it sorts it by row-slice), so it does not
preserve the caller's order unchanged. -/
theorem C3_passthrough_plan_reordered :
    (PassthroughClause.structure_for_processing c3Plan).1 ≠ c3Plan := by
  decide

/-- C3 amended: the entity-id-level structure_for_processing of PassthroughClause
returns the incoming grouping exactly as given, while the plan-level
structure_for_processing applies row-slice structuring (sorting the plan by
(row-range start, col-range start) and grouping entries sharing a row-range),
which may reorder a plan not already in row-slice order. -/
theorem C3_passthrough_structuring :
    (∀ entity_ids_vec : List (List Nat),
      PassthroughClause.structure_for_processing_entities entity_ids_vec = entity_ids_vec) ∧
    (∀ plan : List RangesAndKey,
      PassthroughClause.structure_for_processing plan = structure_by_row_slice plan) :=
  ⟨fun _ => rfl, fun _ => rfl⟩

/-- C6: when SortClause is first, its plan-level structure_for_processing drops the first
incompletes_after_ plan entries and returns the row-slice structuring of only the
remaining entries; every entry referenced by a returned group is an entry of the
remaining suffix, so the skipped prefix appears in no group. -/
theorem C6_sort_clause_skips_incompletes (plan : List RangesAndKey) (n : Nat)
    (h : n ≤ plan.length) :
    SortClause.structure_for_processing n plan = structure_by_row_slice (plan.drop n) ∧
    ∀ g ∈ (SortClause.structure_for_processing n plan).2, ∀ i ∈ g,
      i < (SortClause.structure_for_processing n plan).1.length ∧
      (SortClause.structure_for_processing n plan).1.getD i default ∈ plan.drop n := by
  refine ⟨rfl, ?_⟩
  intro g hg i hi
  have hmem := mem_rowSliceGroups hg hi
  exact ⟨hmem.1, mem_sortPlan.mp hmem.2⟩

/-- C6 witness: a concrete three-entry plan with incompletes_after_ = 1. -/
theorem C6_sort_clause_skips_incompletes_witness :
    (1 : Nat) ≤ c3Plan.length ∧
    ((SortClause.structure_for_processing 1 c3Plan).1 = [⟨⟨0, 10⟩, ⟨0, 1⟩, 1⟩] ∧
      ∀ g ∈ (SortClause.structure_for_processing 1 c3Plan).2, ∀ i ∈ g,
        i < (SortClause.structure_for_processing 1 c3Plan).1.length ∧
        (SortClause.structure_for_processing 1 c3Plan).1.getD i default ∈ c3Plan.drop 1) := by
  refine ⟨by decide, by decide, ?_⟩
  exact (C6_sort_clause_skips_incompletes c3Plan 1 (by decide)).2

/-- RowRangeClause::RowRangeType (clause.hpp:653-657). -/
inductive RowRangeType where
  | HEAD
  | TAIL
  | RANGE
deriving DecidableEq

/-- RowRangeClause state (clause.hpp:652-693): the type tag, the head/tail count n_,
the user-provided RANGE bounds (possibly negative), and the normalised kept half-open
row interval [start_, end_). Machine int64_t fields become Int, uint64_t become Nat. -/
structure RowRangeClause where
  row_range_type_ : RowRangeType
  n_ : Int := 0
  user_provided_start_ : Int := 0
  user_provided_end_ : Int := 0
  start_ : Nat := 0
  end_ : Nat := 0
deriving DecidableEq

/-- RowRangeClause(RowRangeType, n) constructor (clause.hpp:678-682). -/
def RowRangeClause.ofTypeN (row_range_type : RowRangeType) (n : Int) : RowRangeClause :=
  { row_range_type_ := row_range_type, n_ := n }

/-- RowRangeClause(start, end) constructor (clause.hpp:684-689): RANGE with the two
user-provided bounds. -/
def RowRangeClause.ofRange (s e : Int) : RowRangeClause :=
  { row_range_type_ := .RANGE, user_provided_start_ := s, user_provided_end_ := e }

/-- Modelled from the spec: resolution of one user-provided RANGE bound against the
total row count — a negative value counts from the end, and the result is clamped
to [0, total]. -/
def resolveBound (b : Int) (total_rows : Nat) : Nat :=
  let shifted := if b < 0 then b + (total_rows : Int) else b
  (min (max shifted 0) (total_rows : Int)).toNat

/-- Modelled from the spec: RowRangeClause::calculate_start_and_end (declared at
clause.hpp:721, implementation not under src/): HEAD keeps [0, min(n, total)),
TAIL keeps [max(0, total - n), total), RANGE resolves and clamps the two
user-provided bounds. -/
def RowRangeClause.calculate_start_and_end (c : RowRangeClause) (total_rows : Nat) :
    RowRangeClause :=
  match c.row_range_type_ with
  | .HEAD => { c with start_ := 0, end_ := (min c.n_ (total_rows : Int)).toNat }
  | .TAIL => { c with start_ := (max ((total_rows : Int) - c.n_) 0).toNat, end_ := total_rows }
  | .RANGE => { c with start_ := resolveBound c.user_provided_start_ total_rows,
                       end_ := resolveBound c.user_provided_end_ total_rows }

/-- RowRangeClause::set_processing_config (declared at clause.hpp:705): receives the
total row count and normalises start_/end_. -/
def RowRangeClause.set_processing_config (c : RowRangeClause) (total_rows : Nat) :
    RowRangeClause :=
  c.calculate_start_and_end total_rows

/-- Whether row index i falls inside the clause's kept interval [start_, end_). -/
def RowRangeClause.keeps (c : RowRangeClause) (i : Nat) : Bool :=
  decide (c.start_ ≤ i) && decide (i < c.end_)

/-- OutputSchema: the ordered (column-name, type) list and the dynamic-schema flag;
the default-constructed OutputSchema{} is empty. -/
structure OutputSchema where
  columns : List (String × String) := []
  dynamic_schema : Bool := false
deriving DecidableEq

/-- ColumnStatsGenerationClause::modify_schema (clause.hpp:641-644): ignores the input
schema and returns the default-constructed (empty) OutputSchema. -/
def ColumnStatsGenerationClause.modify_schema (_output_schema : OutputSchema) : OutputSchema :=
  {}

/-- The variant node-name type behind ExpressionContext::root_node_name_
(expression_context.hpp, not under src/): a root names a column, a value literal,
or an expression node. -/
inductive VariantNode where
  | ColumnName (name : String)
  | ValueName (name : String)
  | ExpressionName (name : String)
deriving DecidableEq

/-- Whether a variant node name holds the ExpressionName alternative. -/
def VariantNode.isExpressionName : VariantNode → Bool
  | .ExpressionName _ => true
  | _ => false

/-- The part of ExpressionContext that FilterClause's constructor inspects. -/
structure ExpressionContext where
  root_node_name_ : VariantNode
deriving DecidableEq

/-- The fields of FilterClause set by its constructor. -/
structure FilterClause where
  input_columns_ : List String
  root_node_name_ : String
deriving DecidableEq

/-- FilterClause constructor (clause.hpp:135-145): user_input::check raises
E_INVALID_USER_ARGUMENT unless root_node_name_ holds an ExpressionName; on success the
ExpressionName and the input columns are stored. -/
def FilterClause.construct (input_columns : List String)
    (expression_context : ExpressionContext) : Except ErrorCode FilterClause :=
  match expression_context.root_node_name_ with
  | .ExpressionName name => .ok ⟨input_columns, name⟩
  | _ => .error .E_INVALID_USER_ARGUMENT

/-- Output formats of a read (entity/output_format.hpp, values named by the spec). -/
inductive OutputFormat where
  | PANDAS
  | ARROW
  | NATIVE
deriving DecidableEq

/-- ReadOptionsData (read_options.hpp:15-25): every boolean knob is a std::optional<bool>
defaulting to nullopt; output_format_ defaults to PANDAS. -/
structure ReadOptionsData where
  force_strings_to_fixed_ : Option Bool := none
  force_strings_to_object_ : Option Bool := none
  incompletes_ : Option Bool := none
  dynamic_schema_ : Option Bool := none
  allow_sparse_ : Option Bool := none
  set_tz_ : Option Bool := none
  optimise_string_memory_ : Option Bool := none
  batch_throw_on_error_ : Option Bool := none
  output_format_ : OutputFormat := .PANDAS
deriving DecidableEq

/-- Modelled from the spec: opt_false (util/optional_defaults.hpp, not under src/) reads
an optional bool, treating unset as false. -/
def opt_false (o : Option Bool) : Bool :=
  o.getD false

/-- A freshly constructed ReadOptions holds a default-constructed ReadOptionsData
(read_options.hpp:28). -/
def ReadOptions.fresh : ReadOptionsData := {}

/-- ReadOptions::get_incompletes (read_options.hpp:42-44): opt_false of incompletes_. -/
def ReadOptions.get_incompletes (data : ReadOptionsData) : Bool :=
  opt_false data.incompletes_

/-- C2: for every total row count supplied via set_processing_config, HEAD(n) keeps
[0, min(n, total)), TAIL(n) keeps [max(0, total - n), total), and RANGE bounds count
from the end when negative and are clamped to [0, total]; in particular
RANGE(-3,-1) on 10 total rows keeps exactly rows 7 and 8. -/
theorem C2_row_range_normalisation (n s e : Int) (total : Nat) (hn : 0 ≤ n) :
    ((RowRangeClause.ofTypeN .HEAD n).set_processing_config total).start_ = 0 ∧
    ((RowRangeClause.ofTypeN .HEAD n).set_processing_config total).end_ = min n.toNat total ∧
    ((RowRangeClause.ofTypeN .TAIL n).set_processing_config total).start_ = total - n.toNat ∧
    ((RowRangeClause.ofTypeN .TAIL n).set_processing_config total).end_ = total ∧
    ((RowRangeClause.ofRange s e).set_processing_config total).start_ =
      (if 0 ≤ s then min s.toNat total else ((total : Int) + s).toNat) ∧
    ((RowRangeClause.ofRange s e).set_processing_config total).end_ =
      (if 0 ≤ e then min e.toNat total else ((total : Int) + e).toNat) ∧
    (List.range 10).filter ((RowRangeClause.ofRange (-3) (-1)).set_processing_config 10).keeps
      = [7, 8] := by
  refine ⟨rfl, ?_, ?_, rfl, ?_, ?_, by decide⟩
  · simp only [RowRangeClause.set_processing_config, RowRangeClause.calculate_start_and_end,
      RowRangeClause.ofTypeN]
    omega
  · simp only [RowRangeClause.set_processing_config, RowRangeClause.calculate_start_and_end,
      RowRangeClause.ofTypeN]
    omega
  · simp only [RowRangeClause.set_processing_config, RowRangeClause.calculate_start_and_end,
      RowRangeClause.ofRange, resolveBound]
    split <;> split <;> omega
  · simp only [RowRangeClause.set_processing_config, RowRangeClause.calculate_start_and_end,
      RowRangeClause.ofRange, resolveBound]
    split <;> split <;> omega

/-- C2 witness: HEAD(3), TAIL(3) and RANGE(-3,-1) on 10 total rows. -/
theorem C2_row_range_normalisation_witness :
    (0 : Int) ≤ 3 ∧
    ((RowRangeClause.ofTypeN .HEAD 3).set_processing_config 10).end_ = 3 ∧
    ((RowRangeClause.ofTypeN .TAIL 3).set_processing_config 10).start_ = 7 ∧
    (List.range 10).filter ((RowRangeClause.ofRange (-3) (-1)).set_processing_config 10).keeps
      = [7, 8] := by
  have h := C2_row_range_normalisation 3 (-3) (-1) 10 (by decide)
  refine ⟨by decide, ?_, ?_, h.2.2.2.2.2.2⟩
  · rw [h.2.1]; decide
  · rw [h.2.2.1]; decide

/-- C4: ColumnStatsGenerationClause::modify_schema returns the empty OutputSchema for
every input schema, discarding the input entirely (it is not even the identity), so it
cannot describe the schema of the clause's actual stats output. -/
theorem C4_column_stats_modify_schema_empty :
    (∀ s : OutputSchema, ColumnStatsGenerationClause.modify_schema s = {}) ∧
    (∃ s : OutputSchema, ColumnStatsGenerationClause.modify_schema s ≠ s) :=
  ⟨fun _ => rfl, ⟨⟨[("col", "int64")], false⟩, by decide⟩⟩

/-- C5: FilterClause construction succeeds exactly when the ExpressionContext's root node
name is an ExpressionName, and raises E_INVALID_USER_ARGUMENT otherwise (in particular
when the root names a value or a column). -/
theorem C5_filter_clause_construction (cols : List String) (ctx : ExpressionContext) :
    ((∃ c, FilterClause.construct cols ctx = .ok c) ↔
        ctx.root_node_name_.isExpressionName = true) ∧
    (ctx.root_node_name_.isExpressionName = false →
        FilterClause.construct cols ctx = .error .E_INVALID_USER_ARGUMENT) := by
  cases h : ctx.root_node_name_ <;>
    simp [FilterClause.construct, VariantNode.isExpressionName, h]

/-- C5 witness: a context rooted at a value name is rejected with
E_INVALID_USER_ARGUMENT, and one rooted at an expression name is accepted. -/
theorem C5_filter_clause_construction_witness :
    (VariantNode.ValueName "v").isExpressionName = false ∧
    FilterClause.construct [] ⟨.ValueName "v"⟩ = .error .E_INVALID_USER_ARGUMENT ∧
    (∃ c, FilterClause.construct [] ⟨.ExpressionName "root"⟩ = .ok c) := by
  refine ⟨by decide, (C5_filter_clause_construction [] ⟨.ValueName "v"⟩).2 (by decide), ?_⟩
  exact (C5_filter_clause_construction [] ⟨.ExpressionName "root"⟩).1.mpr (by decide)

/-- C7: a freshly constructed ReadOptions has every boolean knob unset, output_format
PANDAS, and get_incompletes() returns false while incompletes is unset. -/
theorem C7_read_options_defaults :
    ReadOptions.fresh.force_strings_to_fixed_ = none ∧
    ReadOptions.fresh.force_strings_to_object_ = none ∧
    ReadOptions.fresh.incompletes_ = none ∧
    ReadOptions.fresh.dynamic_schema_ = none ∧
    ReadOptions.fresh.allow_sparse_ = none ∧
    ReadOptions.fresh.set_tz_ = none ∧
    ReadOptions.fresh.optimise_string_memory_ = none ∧
    ReadOptions.fresh.batch_throw_on_error_ = none ∧
    ReadOptions.fresh.output_format_ = .PANDAS ∧
    ReadOptions.get_incompletes ReadOptions.fresh = false :=
  ⟨rfl, rfl, rfl, rfl, rfl, rfl, rfl, rfl, rfl, rfl⟩

/-- Component manager state (spec section 4.8): a fresh-id counter plus the stored
bundles, each bundle modelled as an opaque Nat tag keyed by its entity id. -/
structure ComponentManager where
  next_entity_id : Nat
  entities : List (Nat × Nat)
deriving DecidableEq

/-- Modelled from the spec: ComponentManager push mints a fresh, strictly increasing
entity id for a bundle. -/
def ComponentManager.push (cm : ComponentManager) (bundle : Nat) : Nat × ComponentManager :=
  (cm.next_entity_id, ⟨cm.next_entity_id + 1, cm.entities ++ [(cm.next_entity_id, bundle)]⟩)

/-- Modelled from the spec: a ProcessingUnit is the working set gathered from a list of
entity ids; here the ordered bundles read out of the component manager. -/
structure ProcessingUnit where
  bundles : List Nat
deriving DecidableEq

/-- Modelled from the spec: gather_entities (clause_utils, not under src/) reads the
listed entities' bundles out of the component manager. -/
def gather_entities (cm : ComponentManager) (entity_ids : List Nat) : ProcessingUnit :=
  ⟨entity_ids.filterMap (fun i => cm.entities.lookup i)⟩

/-- Modelled from the spec: push_entities (clause_utils, not under src/) publishes each
bundle of a processing unit into the component manager, returning the minted ids. -/
def push_entities (cm : ComponentManager) (proc : ProcessingUnit) :
    List Nat × ComponentManager :=
  proc.bundles.foldl (fun (acc : List Nat × ComponentManager) b =>
    let minted := acc.2.push b
    (acc.1 ++ [minted.1], minted.2)) ([], cm)

/-- PartitionClause::process (clause.hpp:267-282), parametric in the grouper/bucketizer
pair through the partition function (partition_processing_segment is not under src/):
an empty entity-id list returns empty at once, before the component manager is touched;
otherwise the gathered unit is partitioned and every partition is pushed, concatenating
the minted ids. -/
def PartitionClause.process
    (partition_processing_segment : ProcessingUnit → List ProcessingUnit)
    (cm : ComponentManager) (entity_ids : List Nat) : List Nat × ComponentManager :=
  if entity_ids.isEmpty then ([], cm)
  else
    let proc := gather_entities cm entity_ids
    let partitioned_procs := partition_processing_segment proc
    partitioned_procs.foldl (fun (acc : List Nat × ComponentManager) part =>
      let pushed := push_entities acc.2 part
      (acc.1 ++ pushed.1, pushed.2)) ([], cm)

/-- Stream identifiers (entity::StreamId): a string or a numeric id. -/
inductive StreamId where
  | str (s : String)
  | num (n : Int)
deriving DecidableEq

/-- Index values of atom keys (entity::IndexValue): a timestamp or a string key. -/
inductive IndexValue where
  | ts (t : Int)
  | str (s : String)
deriving DecidableEq

/-- Key type descriptor. The enumeration lives in entity/key.hpp (not under src/);
mongo_client.cpp consumes only its classification, modelled as fields: a numeric code,
whether stream ids of this key type are strings (is_string_key_type), whether the key
class is a ref class (is_ref_key_class), and whether the type is KeyType::VERSION. -/
structure KeyType where
  code : Nat
  is_string : Bool
  is_ref_class : Bool
  is_version : Bool
deriving DecidableEq

/-- is_string_key_type (entity/key.hpp, not under src/), as classified by the key type. -/
def is_string_key_type (key_type : KeyType) : Bool := key_type.is_string

/-- is_ref_key_class (entity/key.hpp, not under src/), as classified by the key type. -/
def is_ref_key_class (key_type : KeyType) : Bool := key_type.is_ref_class

/-- An atom key as built by AtomKeyBuilder in atom_key_from_document. -/
structure AtomKey where
  stream_id : StreamId
  key_type : KeyType
  version_id : Int
  creation_ts : Int
  content_hash : Int
  start_index : IndexValue
  end_index : IndexValue
deriving DecidableEq

/-- A ref key as built by ref_key_from_document. -/
structure RefKey where
  stream_id : StreamId
  key_type : KeyType
  is_old_type : Bool
deriving DecidableEq

/-- entity::VariantKey: an atom key or a ref key. -/
inductive VariantKey where
  | atom (k : AtomKey)
  | ref (k : RefKey)
deriving DecidableEq

/-- variant_key_type: the key type of either alternative. -/
def VariantKey.key_type : VariantKey → KeyType
  | .atom k => k.key_type
  | .ref k => k.key_type

/-- variant_key_id: the stream id of either alternative. -/
def VariantKey.stream_id : VariantKey → StreamId
  | .atom k => k.stream_id
  | .ref k => k.stream_id

/-- The fmt rendering of a stream id: the string itself, or the decimal numeral. -/
def StreamId.fmt : StreamId → String
  | .str s => s
  | .num n => toString n

/-- The fmt rendering of an index value. -/
def IndexValue.fmt : IndexValue → String
  | .ts t => toString t
  | .str s => s

/-- The fmt rendering of an atom key, an injective textual encoding of its fields. -/
def AtomKey.fmt (k : AtomKey) : String :=
  "A:" ++ toString k.key_type.code ++ ":" ++ k.stream_id.fmt ++ ":" ++
    toString k.version_id ++ ":" ++ toString k.creation_ts ++ ":" ++
    toString k.content_hash ++ ":" ++ k.start_index.fmt ++ ":" ++ k.end_index.fmt

/-- The fmt rendering of a ref key. -/
def RefKey.fmt (k : RefKey) : String :=
  "R:" ++ toString k.key_type.code ++ ":" ++ k.stream_id.fmt

/-- The fmt rendering of a variant key, as used for the document "key" field. -/
def VariantKey.fmt : VariantKey → String
  | .atom k => k.fmt
  | .ref k => k.fmt

/-- The index descriptor types distinguished by atom_key_from_document. -/
inductive IndexType where
  | TIMESTAMP
  | STRING
deriving DecidableEq

/-- A BSON value as stored in the "stream_id" field: a string or an int64. -/
inductive BsonValue where
  | str (s : String)
  | int (n : Int)
deriving DecidableEq

/-- get_string_element of a BSON element; reading the wrong BSON type (which throws in
bsoncxx) is modelled by a default value. -/
def BsonValue.as_string : BsonValue → String
  | .str s => s
  | .int _ => ""

/-- get_int64 of a BSON element; reading the wrong BSON type is modelled by a default. -/
def BsonValue.as_int : BsonValue → Int
  | .int n => n
  | .str _ => 0

/-- The Mongo document shape produced by detail::build_document and consumed by the
readers: the formatted "key" field, the "stream_id" field (string or int64 according to
the written key), the atom-key fields, and total_size plus the raw data bytes. -/
structure MongoDocument where
  key_field : String
  stream_id_field : BsonValue
  version_id : Int
  creation_ts : Int
  content_hash : Int
  index_type : IndexType
  start_time : Int
  end_time : Int
  start_key : String
  end_key : String
  total_size : Nat
  data : List Nat
deriving DecidableEq

/-- detail::stream_id_from_document (mongo_client.cpp:37-46): read the "stream_id" field
as a string for string key types and as an int64 otherwise. -/
def stream_id_from_document (doc : MongoDocument) (key_type : KeyType) : StreamId :=
  if is_string_key_type key_type then .str doc.stream_id_field.as_string
  else .num doc.stream_id_field.as_int

/-- detail::atom_key_from_document (mongo_client.cpp:48-69): read the index type, the
start/end index fields accordingly, the stream id, and build the atom key. -/
def atom_key_from_document (doc : MongoDocument) (key_type : KeyType) : AtomKey :=
  let start_index : IndexValue :=
    if doc.index_type = .TIMESTAMP then .ts doc.start_time else .str doc.start_key
  let end_index : IndexValue :=
    if doc.index_type = .TIMESTAMP then .ts doc.end_time else .str doc.end_key
  { stream_id := stream_id_from_document doc key_type
    key_type := key_type
    version_id := doc.version_id
    creation_ts := doc.creation_ts
    content_hash := doc.content_hash
    start_index := start_index
    end_index := end_index }

/-- detail::ref_key_from_document (mongo_client.cpp:71-76): the stream id with the
requested key type; is_old_type exactly when the key type is VERSION. -/
def ref_key_from_document (doc : MongoDocument) (key_type : KeyType) : RefKey :=
  { stream_id := stream_id_from_document doc key_type
    key_type := key_type
    is_old_type := key_type.is_version }

/-- detail::variant_key_from_document (mongo_client.cpp:78-87): rebuild an atom or a ref
key according to which alternative the requested key holds. -/
def variant_key_from_document (doc : MongoDocument) (key : VariantKey) : VariantKey :=
  match key with
  | .atom _ => .atom (atom_key_from_document doc key.key_type)
  | .ref _ => .ref (ref_key_from_document doc key.key_type)

/-- The segment reconstructed by Segment::from_bytes(data, size): the raw bytes with the
size taken from the stored total_size. -/
structure Segment where
  bytes : List Nat
  size : Nat
deriving DecidableEq

/-- Segment::from_bytes as invoked by read_segment. -/
def Segment.from_bytes (bytes : List Nat) (size : Nat) : Segment := ⟨bytes, size⟩

/-- storage::KeySegmentPair: a variant key together with its segment. -/
structure KeySegmentPair where
  key : VariantKey
  segment : Segment
deriving DecidableEq

/-- The find_one filter of read_segment (mongo_client.cpp:321-322): the document's "key"
field equals the formatted requested key and its "stream_id" field equals the formatted
stream id, which is always compared as a string. -/
def matches_read_query (key : VariantKey) (doc : MongoDocument) : Bool :=
  decide (doc.key_field = key.fmt) &&
    decide (doc.stream_id_field = .str key.stream_id.fmt)

/-- MongoClientImpl::read_segment (mongo_client.cpp:302-336): find_one with the key and
stream-id filter; nullopt when nothing matches; otherwise rebuild the key from the
stored document, fatally check (util::check) that it equals the requested key, and
return it with the segment decoded from the stored total_size and data bytes. -/
def read_segment (collection : List MongoDocument) (key : VariantKey) :
    Except ErrorCode (Option KeySegmentPair) :=
  match collection.find? (matches_read_query key) with
  | none => .ok none
  | some doc =>
      let stored_key := variant_key_from_document doc key
      if stored_key = key then
        .ok (some ⟨stored_key, Segment.from_bytes doc.data doc.total_size⟩)
      else
        .error .E_ASSERTION_FAILURE

/-- The per-document decoding of list_keys: atom or ref according to the key type. -/
def decode_key (key_type : KeyType) (doc : MongoDocument) : VariantKey :=
  if is_ref_key_class key_type then .ref (ref_key_from_document doc key_type)
  else .atom (atom_key_from_document doc key_type)

/-- MongoClientImpl::list_keys (mongo_client.cpp:382-411): only a present and non-empty
prefix makes the cursor filter on stream_id equal to the prefix string; every document
of the cursor is decoded as an atom or ref key according to the requested key type. -/
def list_keys (collection : List MongoDocument) (key_type : KeyType)
    (prefix_opt : Option String) : List VariantKey :=
  let has_pfx := prefix_opt.isSome && !((prefix_opt.getD "").isEmpty)
  let docs := if has_pfx
    then collection.filter (fun doc => decide (doc.stream_id_field = .str (prefix_opt.getD "")))
    else collection
  docs.map (decode_key key_type)

/-- C8: for every partition function (i.e. every PartitionClause instantiation) and
every component-manager state, process on an empty entity-id list returns an empty
output list and leaves the component manager unchanged. -/
theorem C8_partition_process_empty :
    ∀ (partition_processing_segment : ProcessingUnit → List ProcessingUnit)
      (cm : ComponentManager),
      PartitionClause.process partition_processing_segment cm [] = ([], cm) :=
  fun _ _ => rfl

/-- C9: read_segment returns nullopt exactly when no stored document matches the
key/stream-id query; when a document is found, a mismatch between the key rebuilt from
it and the requested key is a fatal check failure, and on success the returned pair
carries the rebuilt key and the segment decoded from the stored size and data. -/
theorem C9_read_segment_key_check (collection : List MongoDocument) (key : VariantKey) :
    (read_segment collection key = .ok none ↔
        ∀ doc ∈ collection, matches_read_query key doc = false) ∧
    (∀ doc, collection.find? (matches_read_query key) = some doc →
      (variant_key_from_document doc key ≠ key →
          read_segment collection key = .error .E_ASSERTION_FAILURE) ∧
      (variant_key_from_document doc key = key →
          read_segment collection key =
            .ok (some ⟨variant_key_from_document doc key,
                       Segment.from_bytes doc.data doc.total_size⟩))) := by
  constructor
  · cases hf : collection.find? (matches_read_query key) with
    | none =>
        simp only [read_segment, hf]
        constructor
        · intro _ doc hd
          have := List.find?_eq_none.mp hf doc hd
          simpa using this
        · intro _
          trivial
    | some doc =>
        simp only [read_segment, hf]
        constructor
        · intro h
          split at h <;> simp at h
        · intro h
          have h1 := List.find?_some hf
          have h2 := List.mem_of_find?_eq_some hf
          rw [h doc h2] at h1
          cases h1
  · intro doc hf
    constructor
    · intro hne
      simp only [read_segment, hf, if_neg hne]
    · intro heq
      simp only [read_segment, hf, if_pos heq]

/-- A concrete string-stream-id atom key type. -/
def keyType0 : KeyType := ⟨1, true, false, false⟩

/-- A concrete atom key under keyType0. -/
def key0 : VariantKey :=
  .atom ⟨.str "sym", keyType0, 1, 2, 3, .ts 0, .ts 10⟩

/-- The document build_document would store for key0 with four data bytes. -/
def doc0 : MongoDocument :=
  ⟨key0.fmt, .str "sym", 1, 2, 3, .TIMESTAMP, 0, 10, "", "", 4, [9, 8, 7, 6]⟩

/-- C9 witness: on a one-document collection holding key0's document, read_segment finds
the document, the rebuilt key equals key0, and the stored segment is returned. -/
theorem C9_read_segment_key_check_witness :
    [doc0].find? (matches_read_query key0) = some doc0 ∧
    variant_key_from_document doc0 key0 = key0 ∧
    read_segment [doc0] key0 =
      .ok (some ⟨variant_key_from_document doc0 key0,
                 Segment.from_bytes doc0.data doc0.total_size⟩) := by
  refine ⟨by decide, by decide, ?_⟩
  exact ((C9_read_segment_key_check [doc0] key0).2 doc0 (by decide)).2 (by decide)

/-- C10: list_keys applies the stream-id filter only for a present, non-empty prefix:
the empty-string prefix returns the same keys as no prefix at all (every document
decoded per the requested key type), while a non-empty prefix keeps exactly the
documents whose stream_id field equals the prefix string. -/
theorem C10_list_keys_stream_id_filter (collection : List MongoDocument) (key_type : KeyType)
    (p : String) :
    list_keys collection key_type (some "") = list_keys collection key_type none ∧
    list_keys collection key_type none = collection.map (decode_key key_type) ∧
    (p.isEmpty = false → list_keys collection key_type (some p) =
      (collection.filter
        (fun doc => decide (doc.stream_id_field = .str p))).map (decode_key key_type)) := by
  refine ⟨rfl, rfl, ?_⟩
  intro hp
  simp [list_keys, hp]

/-- C10 witness: a two-document collection listed with the empty prefix, no prefix, and
the non-empty prefix "sym". -/
theorem C10_list_keys_stream_id_filter_witness :
    list_keys [doc0] keyType0 (some "") = list_keys [doc0] keyType0 none ∧
    ("sym" : String).isEmpty = false ∧
    list_keys [doc0] keyType0 (some "sym") =
      ([doc0].filter
        (fun doc => decide (doc.stream_id_field = .str "sym"))).map (decode_key keyType0) := by
  have h := C10_list_keys_stream_id_filter [doc0] keyType0 "sym"
  exact ⟨h.1, by decide, h.2.2 (by decide)⟩
